import Mathlib

/-!
Verification of the animatronic-eyes calibration repository against its
specification.

The repository consists of two configuration headers:
  * `EyesIntegration_Enhanced_v4/EyeConfig.h` — calibrated servo limits,
    nunchuck calibration, motion-control parameters and safety limits;
  * `ServoPulseCalibrator/CalibratorConfig.h` — calibrator settings and
    compile-time range checks.

The constants below are transcribed directly from those headers.  The
specification additionally describes a minimal control system (ChannelLimits
registry with load-time validation, and a Motion Controller `tick`) that the
configuration data implies; that control code is not part of the repository
sources, so those operations are modelled from the specification's own words
(each such definition is marked `Modelled from the spec:`).
-/

namespace AnimatronicEyes

/-! ### Constants from EyeConfig.h -/

-- Horizontal eye movement limits (channel 0), from struct HorizontalLimits.
namespace HorizontalLimits

def MIN : Int := 220

def CENTER : Int := 345

def MAX : Int := 470

def INVERTED : Bool := true

end HorizontalLimits

-- Vertical eye movement limits (channel 1), from struct VerticalLimits.
namespace VerticalLimits

def MIN : Int := 260

def CENTER : Int := 342

def MAX : Int := 440

def INVERTED : Bool := false

end VerticalLimits

-- Left upper eyelid (channel 2), from struct LeftUpperLid.
namespace LeftUpperLid

def OPEN : Int := 300

def CLOSED : Int := 410

def HALF : Int := 335

def INVERTED : Bool := false

end LeftUpperLid

-- Left lower eyelid (channel 3), from struct LeftLowerLid.
namespace LeftLowerLid

def OPEN : Int := 280

def CLOSED : Int := 400

def HALF : Int := 340

def INVERTED : Bool := true

end LeftLowerLid

-- Right upper eyelid (channel 4), from struct RightUpperLid.
namespace RightUpperLid

def OPEN : Int := 255

def CLOSED : Int := 380

def HALF : Int := 340

def INVERTED : Bool := true

end RightUpperLid

-- Right lower eyelid (channel 5), from struct RightLowerLid.
namespace RightLowerLid

def OPEN : Int := 280

def CLOSED : Int := 395

def HALF : Int := 325

def INVERTED : Bool := false

end RightLowerLid

-- Nunchuck joystick calibration, from struct NunchuckCalibration.
namespace NunchuckCalibration

def JOY_X_MIN : Int := 26

def JOY_X_MAX : Int := 226

def JOY_Y_MIN : Int := 26

def JOY_Y_MAX : Int := 226

def CENTER : Int := 126

end NunchuckCalibration

-- Motion smoothing divisors, from struct MotionSettings.
namespace MotionSettings

def EYE_SMOOTHING : Int := 8

def EYELID_SMOOTHING : Int := 5

end MotionSettings

/-- Joystick deadzone half-width, from `#define DEADZONE 10`. -/
def DEADZONE : Int := 10

-- Absolute safety constraints, from struct SafetyLimits.
namespace SafetyLimits

def ABSOLUTE_MIN_PULSE : Int := 100

def ABSOLUTE_MAX_PULSE : Int := 650

def MAX_DELTA_PER_UPDATE : Int := 50

def MIN_UPDATE_INTERVAL_MS : Int := 20

end SafetyLimits

/-! ### The ChannelLimits registry (spec §3, §4.1)

The repository holds only the configuration constants above; the registry and
motion-controller operations that consume them are described in the spec and
are modelled here from its words. -/

/-- Modelled from the spec: the per-channel reference points of the data model
(§3) — `centerPulse` for movement channels, `openPulse`/`closedPulse`/`halfPulse`
for eyelid channels.  The repository sources declare only the constant structs,
not this record type. -/
inductive ChannelRefs where
  | movement (centerPulse : ℚ)
  | eyelid (openPulse closedPulse halfPulse : ℚ)
deriving DecidableEq

/-- Modelled from the spec: the `ChannelLimits` record of §3 (channel id, safe
pulse bounds, reference points, inversion flag).  The repository sources
declare only per-channel constant structs. -/
structure ChannelLimits where
  channel : Nat
  minPulse : ℚ
  maxPulse : ℚ
  refs : ChannelRefs
  inverted : Bool
deriving DecidableEq

/-- The list of reference points carried by a channel (used by load-time
validation: every reference point must lie within the safe bounds). -/
def ChannelRefs.points : ChannelRefs → List ℚ
  | .movement c => [c]
  | .eyelid o c h => [o, c, h]

/-- Modelled from the spec: the channel's two interpolation endpoints — the
"two reference points" of `mapLogical` (§4.1).  For a movement channel the
travel endpoints are its safe bounds (logical 0.5 then lands on the midpoint,
the centre); for an eyelid channel they are the open and closed positions. -/
def ChannelLimits.refPair (c : ChannelLimits) : ℚ × ℚ :=
  match c.refs with
  | .movement _ => (c.minPulse, c.maxPulse)
  | .eyelid o cl _ => (o, cl)

/-- Modelled from the spec: `mapLogical(channel, logicalValue) → pulse`, linear
interpolation between the channel's two reference points, with `inverted`
swapping which reference point corresponds to logical 0.0 (§4.1). -/
def mapLogical (c : ChannelLimits) (v : ℚ) : ℚ :=
  let p0 := c.refPair.1
  let p1 := c.refPair.2
  if c.inverted then p1 + (p0 - p1) * v else p0 + (p1 - p0) * v

/-- Modelled from the spec: the configuration-load error of §4.1/§7 (fatal,
raised once at startup). -/
inductive ConfigError where
  | invalidChannel (channel : Nat)
deriving DecidableEq

/-- Modelled from the spec: the per-channel validity check behind
`load(config)` (§4.1): `minPulse < maxPulse`, every reference point within
`[minPulse, maxPulse]`, and every bound within the global absolute
floor/ceiling `[ABSOLUTE_MIN_PULSE, ABSOLUTE_MAX_PULSE] = [100, 650]`. -/
def channelOk (c : ChannelLimits) : Bool :=
  decide (c.minPulse < c.maxPulse) &&
  c.refs.points.all (fun p => decide (c.minPulse ≤ p) && decide (p ≤ c.maxPulse)) &&
  decide ((SafetyLimits.ABSOLUTE_MIN_PULSE : ℚ) ≤ c.minPulse) &&
  decide (c.minPulse ≤ (SafetyLimits.ABSOLUTE_MAX_PULSE : ℚ)) &&
  decide ((SafetyLimits.ABSOLUTE_MIN_PULSE : ℚ) ≤ c.maxPulse) &&
  decide (c.maxPulse ≤ (SafetyLimits.ABSOLUTE_MAX_PULSE : ℚ))

/-- Modelled from the spec: `load(config) → Registry` (§4.1) — a startup
validation pass that fails with `ConfigError` on the first invalid channel and
otherwise returns the registry unchanged.  The repository sources contain only
the equivalent compile-time preprocessor checks. -/
def load (cfg : List ChannelLimits) : Except ConfigError (List ChannelLimits) :=
  match cfg.find? (fun c => ! channelOk c) with
  | some c => .error (.invalidChannel c.channel)
  | none => .ok cfg

/-! ### The Motion Controller (spec §4.2) -/

/-- Modelled from the spec: the runtime `AxisState` of §3 — last commanded
pulse and last update timestamp (milliseconds). -/
structure AxisState where
  currentPulse : ℚ
  lastUpdateTimestamp : Int
deriving DecidableEq

/-- Modelled from the spec: step 1 of `tick` (§4.2) — if
`|rawInput - center| < DEADZONE`, treat the input as exactly center. -/
def applyDeadzone (raw : Int) : Int :=
  if |raw - NunchuckCalibration.CENTER| < DEADZONE then NunchuckCalibration.CENTER
  else raw

/-- Modelled from the spec: step 2 of `tick` (§4.2) — map the
deadzone-adjusted raw joystick reading linearly onto the logical 0.0–1.0
range, using the nunchuck calibration (full deflection one way ↦ 0.0, the
other ↦ 1.0). -/
def rawToLogical (raw : Int) : ℚ :=
  ((raw : ℚ) - (NunchuckCalibration.JOY_X_MIN : ℚ)) /
    ((NunchuckCalibration.JOY_X_MAX : ℚ) - (NunchuckCalibration.JOY_X_MIN : ℚ))

/-- Modelled from the spec: the per-category smoothing divisor of §4.2 step 3 —
`EYE_SMOOTHING` for movement channels, `EYELID_SMOOTHING` for eyelid
channels. -/
def smoothingFactor (c : ChannelLimits) : ℚ :=
  match c.refs with
  | .movement _ => (MotionSettings.EYE_SMOOTHING : ℚ)
  | .eyelid _ _ _ => (MotionSettings.EYELID_SMOOTHING : ℚ)

/-- Modelled from the spec: `clamp(channel, pulse)` (§4.1) — clamp a pulse to
the channel's inclusive safe range `[minPulse, maxPulse]`. -/
def clampPulse (c : ChannelLimits) (p : ℚ) : ℚ :=
  max c.minPulse (min p c.maxPulse)

/-- Modelled from the spec: step 4 of `tick` (§4.2) — cap the smoothed step to
`±MAX_DELTA_PER_UPDATE`, preserving its direction. -/
def capDelta (d : ℚ) : ℚ :=
  if d > (SafetyLimits.MAX_DELTA_PER_UPDATE : ℚ) then (SafetyLimits.MAX_DELTA_PER_UPDATE : ℚ)
  else if d < -(SafetyLimits.MAX_DELTA_PER_UPDATE : ℚ) then -(SafetyLimits.MAX_DELTA_PER_UPDATE : ℚ)
  else d

/-- Modelled from the spec: the Motion Controller `tick(channel, rawInput, dt)`
of §4.2, with the six steps in order: deadzone, linear mapping honouring
`inverted`, exponential smoothing, per-tick delta cap, clamp to the safe
range, and the minimum-update-interval gate (a call arriving before
`MIN_UPDATE_INTERVAL_MS` has elapsed reuses the previous output unchanged).
`dt` is the time in milliseconds since the previous update.  The function is
total: it never raises, bad runtime input is clamped rather than rejected. -/
def tick (c : ChannelLimits) (st : AxisState) (rawInput : Int) (dt : Int) : AxisState :=
  if dt < SafetyLimits.MIN_UPDATE_INTERVAL_MS then st
  else
    let target := mapLogical c (rawToLogical (applyDeadzone rawInput))
    let step := capDelta ((target - st.currentPulse) / smoothingFactor c)
    { currentPulse := clampPulse c (st.currentPulse + step),
      lastUpdateTimestamp := st.lastUpdateTimestamp + dt }

/-- Holding the raw input and tick period fixed, iterate the Motion
Controller `n` times from a starting state. -/
def iterTick (c : ChannelLimits) (rawInput : Int) (dt : Int) : Nat → AxisState → AxisState
  | 0, st => st
  | n + 1, st => tick c (iterTick c rawInput dt n st) rawInput dt

/-! ### The reference calibration as a registry -/

/-- Channel 0 as a `ChannelLimits` record, from `HorizontalLimits`. -/
def horizontalChannel : ChannelLimits :=
  { channel := 0, minPulse := (HorizontalLimits.MIN : ℚ),
    maxPulse := (HorizontalLimits.MAX : ℚ),
    refs := .movement (HorizontalLimits.CENTER : ℚ),
    inverted := HorizontalLimits.INVERTED }

/-- Channel 1 as a `ChannelLimits` record, from `VerticalLimits`. -/
def verticalChannel : ChannelLimits :=
  { channel := 1, minPulse := (VerticalLimits.MIN : ℚ),
    maxPulse := (VerticalLimits.MAX : ℚ),
    refs := .movement (VerticalLimits.CENTER : ℚ),
    inverted := VerticalLimits.INVERTED }

/-- Channel 2 as a `ChannelLimits` record, from `LeftUpperLid`.  The eyelid
structs carry no separate MIN/MAX, so the safe bounds are the travel
endpoints OPEN and CLOSED (numerically ordered this way for every lid in the
reference calibration). -/
def leftUpperLidChannel : ChannelLimits :=
  { channel := 2, minPulse := (LeftUpperLid.OPEN : ℚ),
    maxPulse := (LeftUpperLid.CLOSED : ℚ),
    refs := .eyelid (LeftUpperLid.OPEN : ℚ) (LeftUpperLid.CLOSED : ℚ) (LeftUpperLid.HALF : ℚ),
    inverted := LeftUpperLid.INVERTED }

/-- Channel 3 as a `ChannelLimits` record, from `LeftLowerLid`. -/
def leftLowerLidChannel : ChannelLimits :=
  { channel := 3, minPulse := (LeftLowerLid.OPEN : ℚ),
    maxPulse := (LeftLowerLid.CLOSED : ℚ),
    refs := .eyelid (LeftLowerLid.OPEN : ℚ) (LeftLowerLid.CLOSED : ℚ) (LeftLowerLid.HALF : ℚ),
    inverted := LeftLowerLid.INVERTED }

/-- Channel 4 as a `ChannelLimits` record, from `RightUpperLid`. -/
def rightUpperLidChannel : ChannelLimits :=
  { channel := 4, minPulse := (RightUpperLid.OPEN : ℚ),
    maxPulse := (RightUpperLid.CLOSED : ℚ),
    refs := .eyelid (RightUpperLid.OPEN : ℚ) (RightUpperLid.CLOSED : ℚ) (RightUpperLid.HALF : ℚ),
    inverted := RightUpperLid.INVERTED }

/-- Channel 5 as a `ChannelLimits` record, from `RightLowerLid`. -/
def rightLowerLidChannel : ChannelLimits :=
  { channel := 5, minPulse := (RightLowerLid.OPEN : ℚ),
    maxPulse := (RightLowerLid.CLOSED : ℚ),
    refs := .eyelid (RightLowerLid.OPEN : ℚ) (RightLowerLid.CLOSED : ℚ) (RightLowerLid.HALF : ℚ),
    inverted := RightLowerLid.INVERTED }

/-- The six calibrated channels of EyeConfig.h as a registry. -/
def referenceConfig : List ChannelLimits :=
  [horizontalChannel, verticalChannel, leftUpperLidChannel,
   leftLowerLidChannel, rightUpperLidChannel, rightLowerLidChannel]

/-- The same channel with the inversion flag replaced. -/
def setInverted (c : ChannelLimits) (b : Bool) : ChannelLimits :=
  { c with inverted := b }

/-- A channel with the same data but the two mapping reference points
swapped (for a movement channel these are its bounds, for an eyelid channel
its open/closed positions). -/
def swapRefs (c : ChannelLimits) : ChannelLimits :=
  match c.refs with
  | .movement _ => { c with minPulse := c.maxPulse, maxPulse := c.minPulse }
  | .eyelid o cl h => { c with refs := .eyelid cl o h }

/-- The invalid configuration of the spec's validation test: inverted bounds
`minPulse = 470, maxPulse = 220`. -/
def invertedBoundsChannel : ChannelLimits :=
  { channel := 0, minPulse := 470, maxPulse := 220,
    refs := .movement 345, inverted := false }

/-- The invalid configuration of the spec's validation test:
`centerPulse = 700` outside `[minPulse, maxPulse] = [220, 470]`. -/
def centerOutOfRangeChannel : ChannelLimits :=
  { channel := 0, minPulse := 220, maxPulse := 470,
    refs := .movement 700, inverted := false }

/-- The failure condition of `load`, stated in the claim's words: some
channel has `minPulse ≥ maxPulse`, some reference point lies outside that
channel's `[minPulse, maxPulse]`, or some bound lies outside the global range
`[100, 650]`. -/
def badChannel (c : ChannelLimits) : Prop :=
  c.maxPulse ≤ c.minPulse ∨
  (∃ r ∈ c.refs.points, r < c.minPulse ∨ c.maxPulse < r) ∨
  (c.minPulse < (SafetyLimits.ABSOLUTE_MIN_PULSE : ℚ) ∨
    (SafetyLimits.ABSOLUTE_MAX_PULSE : ℚ) < c.minPulse ∨
    c.maxPulse < (SafetyLimits.ABSOLUTE_MIN_PULSE : ℚ) ∨
    (SafetyLimits.ABSOLUTE_MAX_PULSE : ℚ) < c.maxPulse)

/-! ### Helper lemmas -/

/-- The validity check of a channel, unfolded to its six conditions. -/
lemma channelOk_eq_true_iff (c : ChannelLimits) :
    channelOk c = true ↔
      (c.minPulse < c.maxPulse ∧
       (∀ r ∈ c.refs.points, c.minPulse ≤ r ∧ r ≤ c.maxPulse) ∧
       (SafetyLimits.ABSOLUTE_MIN_PULSE : ℚ) ≤ c.minPulse ∧
       c.minPulse ≤ (SafetyLimits.ABSOLUTE_MAX_PULSE : ℚ) ∧
       (SafetyLimits.ABSOLUTE_MIN_PULSE : ℚ) ≤ c.maxPulse ∧
       c.maxPulse ≤ (SafetyLimits.ABSOLUTE_MAX_PULSE : ℚ)) := by
  simp [channelOk, List.all_eq_true, and_assoc]

/-- The claim's failure condition is the negation of the validity check. -/
lemma badChannel_iff (c : ChannelLimits) : badChannel c ↔ ¬ channelOk c = true := by
  rw [channelOk_eq_true_iff]
  unfold badChannel
  simp only [not_and_or, not_forall, not_le, not_lt, exists_prop, not_and_or]

/-- The load pass errors exactly when some channel fails the claim's failure
condition. -/
lemma load_error_iff (cfg : List ChannelLimits) :
    (∃ e, load cfg = Except.error e) ↔ ∃ c ∈ cfg, badChannel c := by
  unfold load
  cases hfind : cfg.find? (fun c => ! channelOk c) with
  | none =>
    simp only []
    constructor
    · rintro ⟨e, h⟩
      exact absurd h (by simp)
    · rintro ⟨c, hc, hbad⟩
      have hall := List.find?_eq_none.mp hfind c hc
      simp only [Bool.not_eq_true', Bool.not_eq_false] at hall
      exact absurd hall ((badChannel_iff c).mp hbad)
  | some c =>
    constructor
    · intro _
      have hmem := List.mem_of_find?_eq_some hfind
      have hp := List.find?_some hfind
      simp only [Bool.not_eq_true'] at hp
      exact ⟨c, hmem, (badChannel_iff c).mpr (by simp [hp])⟩
    · intro _
      exact ⟨.invalidChannel c.channel, rfl⟩

/-- Clamping to a nonempty interval lands in the interval. -/
lemma clampPulse_mem (c : ChannelLimits) (p : ℚ) (h : c.minPulse ≤ c.maxPulse) :
    c.minPulse ≤ clampPulse c p ∧ clampPulse c p ≤ c.maxPulse :=
  ⟨le_max_left _ _, max_le h (min_le_right _ _)⟩

/-- The capped step never exceeds `MAX_DELTA_PER_UPDATE` in magnitude. -/
lemma abs_capDelta_le (d : ℚ) :
    |capDelta d| ≤ (SafetyLimits.MAX_DELTA_PER_UPDATE : ℚ) := by
  unfold capDelta
  have h50 : (0 : ℚ) ≤ (SafetyLimits.MAX_DELTA_PER_UPDATE : ℚ) := by
    norm_num [SafetyLimits.MAX_DELTA_PER_UPDATE]
  split_ifs with h1 h2
  · rw [abs_of_nonneg h50]
  · rw [abs_of_nonpos (by linarith)]
    linarith
  · rw [abs_le]
    exact ⟨by linarith [not_lt.mp h2], by linarith [not_lt.mp h1]⟩

/-- Capping a nonnegative step keeps it nonnegative (direction preserved). -/
lemma capDelta_nonneg {d : ℚ} (h : 0 ≤ d) : 0 ≤ capDelta d := by
  unfold capDelta
  have h50 : (0 : ℚ) ≤ (SafetyLimits.MAX_DELTA_PER_UPDATE : ℚ) := by
    norm_num [SafetyLimits.MAX_DELTA_PER_UPDATE]
  split_ifs <;> linarith

/-- Capping a nonpositive step keeps it nonpositive (direction preserved). -/
lemma capDelta_nonpos {d : ℚ} (h : d ≤ 0) : capDelta d ≤ 0 := by
  unfold capDelta
  have h50 : (0 : ℚ) ≤ (SafetyLimits.MAX_DELTA_PER_UPDATE : ℚ) := by
    norm_num [SafetyLimits.MAX_DELTA_PER_UPDATE]
  split_ifs <;> linarith

/-- Clamping a step taken from a point of the interval moves the result no
farther from that point than the unclamped step. -/
lemma abs_clampPulse_sub_le (c : ChannelLimits) (x d : ℚ)
    (h1 : c.minPulse ≤ x) (h2 : x ≤ c.maxPulse) :
    |clampPulse c (x + d) - x| ≤ |d| := by
  have hlow : x - |d| ≤ max c.minPulse (min (x + d) c.maxPulse) := by
    have h3 : x - |d| ≤ x + d := by linarith [neg_abs_le d]
    have h4 : x - |d| ≤ c.maxPulse := by linarith [abs_nonneg d]
    exact le_max_of_le_right (le_min h3 h4)
  have hhigh : max c.minPulse (min (x + d) c.maxPulse) ≤ x + |d| := by
    have h5 : c.minPulse ≤ x + |d| := by linarith [abs_nonneg d]
    have h6 : min (x + d) c.maxPulse ≤ x + |d| :=
      le_trans (min_le_left _ _) (by linarith [le_abs_self d])
    exact max_le h5 h6
  unfold clampPulse
  rw [abs_le]
  exact ⟨by linarith, by linarith⟩

/-- On the horizontal channel with the raw input held at full left
(`JOY_X_MIN = 26`) and ticks `MIN_UPDATE_INTERVAL_MS = 20` ms apart, an
in-range state advances by exactly one smoothing step toward 470. -/
lemma tick_fullLeft_step (st : AxisState)
    (h1 : (220 : ℚ) ≤ st.currentPulse) (h2 : st.currentPulse ≤ (470 : ℚ)) :
    (tick horizontalChannel st NunchuckCalibration.JOY_X_MIN 20).currentPulse
      = st.currentPulse + (470 - st.currentPulse) / 8 := by
  have htgt : mapLogical horizontalChannel
      (rawToLogical (applyDeadzone NunchuckCalibration.JOY_X_MIN)) = 470 := by
    norm_num [mapLogical, rawToLogical, applyDeadzone, horizontalChannel,
      ChannelLimits.refPair, HorizontalLimits.MIN, HorizontalLimits.MAX,
      HorizontalLimits.CENTER, HorizontalLimits.INVERTED,
      NunchuckCalibration.JOY_X_MIN, NunchuckCalibration.JOY_X_MAX,
      NunchuckCalibration.CENTER, DEADZONE]
  have hsm : smoothingFactor horizontalChannel = 8 := by
    norm_num [smoothingFactor, horizontalChannel, MotionSettings.EYE_SMOOTHING]
  have hd1 : (470 - st.currentPulse) / 8 ≤ (SafetyLimits.MAX_DELTA_PER_UPDATE : ℚ) := by
    push_cast [SafetyLimits.MAX_DELTA_PER_UPDATE]
    linarith
  have hd2 : -(SafetyLimits.MAX_DELTA_PER_UPDATE : ℚ) ≤ (470 - st.currentPulse) / 8 := by
    push_cast [SafetyLimits.MAX_DELTA_PER_UPDATE]
    linarith
  have hcap : capDelta ((470 - st.currentPulse) / 8) = (470 - st.currentPulse) / 8 := by
    unfold capDelta
    rw [if_neg (not_lt.mpr hd1), if_neg (not_lt.mpr hd2)]
  have hmin : horizontalChannel.minPulse = 220 := by
    norm_num [horizontalChannel, HorizontalLimits.MIN]
  have hmax : horizontalChannel.maxPulse = 470 := by
    norm_num [horizontalChannel, HorizontalLimits.MAX]
  have hgate : ¬ ((20 : Int) < SafetyLimits.MIN_UPDATE_INTERVAL_MS) := by decide
  simp only [tick, if_neg hgate, htgt, hsm, hcap, clampPulse, hmin, hmax]
  rw [min_eq_left (by linarith), max_eq_right (by linarith)]

/-- Iterating full-left ticks on the horizontal channel keeps the pulse in
`[220, 470]` and leaves a gap to 470 that decays geometrically with ratio
`7/8`. -/
lemma iterTick_fullLeft (st : AxisState)
    (h1 : (220 : ℚ) ≤ st.currentPulse) (h2 : st.currentPulse ≤ (470 : ℚ)) (n : ℕ) :
    (220 : ℚ) ≤ (iterTick horizontalChannel NunchuckCalibration.JOY_X_MIN 20 n st).currentPulse ∧
    (iterTick horizontalChannel NunchuckCalibration.JOY_X_MIN 20 n st).currentPulse ≤ 470 ∧
    470 - (iterTick horizontalChannel NunchuckCalibration.JOY_X_MIN 20 n st).currentPulse
      = (7/8 : ℚ)^n * (470 - st.currentPulse) := by
  induction n with
  | zero =>
    refine ⟨h1, h2, ?_⟩
    simp [iterTick]
  | succ n ih =>
    obtain ⟨ih1, ih2, ih3⟩ := ih
    have hstep := tick_fullLeft_step
      (iterTick horizontalChannel NunchuckCalibration.JOY_X_MIN 20 n st) ih1 ih2
    simp only [iterTick, hstep]
    refine ⟨by linarith, by linarith, ?_⟩
    have hgap : 470 -
        ((iterTick horizontalChannel NunchuckCalibration.JOY_X_MIN 20 n st).currentPulse +
          (470 - (iterTick horizontalChannel NunchuckCalibration.JOY_X_MIN 20 n st).currentPulse) / 8)
        = (7/8 : ℚ) *
          (470 - (iterTick horizontalChannel NunchuckCalibration.JOY_X_MIN 20 n st).currentPulse) := by
      ring
    rw [hgap, ih3, pow_succ]
    ring

/-! ### Claim theorems -/

/-- Claim C2: `load(config)` fails with a `ConfigError` exactly when some
channel has `minPulse ≥ maxPulse`, some reference point lies outside that
channel's `[minPulse, maxPulse]`, or some bound lies outside the global range
`[100, 650]`; in particular the configuration `minPulse = 470, maxPulse = 220`
is rejected, and `centerPulse = 700` with `[minPulse, maxPulse] = [220, 470]`
is rejected. -/
theorem load_fails_iff_invalid :
    (∀ cfg : List ChannelLimits,
      (∃ e, load cfg = Except.error e) ↔ ∃ c ∈ cfg, badChannel c) ∧
    load [invertedBoundsChannel] = Except.error (.invalidChannel 0) ∧
    load [centerOutOfRangeChannel] = Except.error (.invalidChannel 0) :=
  ⟨load_error_iff, rfl, rfl⟩

/-- Claim C3: the reference calibration of EyeConfig.h satisfies the spec's
data invariants on all six channels: strict `minPulse < maxPulse`, every
reference point within `[minPulse, maxPulse]`, and every bound within the
global range `[ABSOLUTE_MIN_PULSE, ABSOLUTE_MAX_PULSE] = [100, 650]`;
consequently the registry loads without a `ConfigError`. -/
theorem referenceConfig_satisfies_invariants :
    (∀ c ∈ referenceConfig,
       c.minPulse < c.maxPulse ∧
       (∀ r ∈ c.refs.points, c.minPulse ≤ r ∧ r ≤ c.maxPulse) ∧
       (SafetyLimits.ABSOLUTE_MIN_PULSE : ℚ) ≤ c.minPulse ∧
       c.minPulse ≤ (SafetyLimits.ABSOLUTE_MAX_PULSE : ℚ) ∧
       (SafetyLimits.ABSOLUTE_MIN_PULSE : ℚ) ≤ c.maxPulse ∧
       c.maxPulse ≤ (SafetyLimits.ABSOLUTE_MAX_PULSE : ℚ)) ∧
    load referenceConfig = Except.ok referenceConfig :=
  ⟨by decide, rfl⟩

/-- Claim C8: the live field value `LeftUpperLid::CLOSED` is 410, not the 610
stated in the struct's documentation comment; likewise the live values of
`RightUpperLid` and `RightLowerLid` (CLOSED = 380, not the commented 425 or
595; OPEN = 280, HALF = 325, not the commented 255 or 345) are what the
source declares. -/
theorem leftUpperLid_closed_is_410 :
    LeftUpperLid.CLOSED = 410 ∧ LeftUpperLid.CLOSED ≠ 610 ∧
    RightUpperLid.CLOSED = 380 ∧ RightUpperLid.CLOSED ≠ 425 ∧
    RightUpperLid.CLOSED ≠ 595 ∧
    RightLowerLid.OPEN = 280 ∧ RightLowerLid.OPEN ≠ 255 ∧
    RightLowerLid.HALF = 325 ∧ RightLowerLid.HALF ≠ 345 := by decide

/-- Claim C9: in each of the four eyelid structs, HALF lies strictly between
OPEN and CLOSED, although HALF is not in every struct the integer midpoint of
OPEN and CLOSED that its comment claims (LeftUpperLid is one such struct). -/
theorem eyelid_half_strictly_between :
    (min LeftUpperLid.OPEN LeftUpperLid.CLOSED < LeftUpperLid.HALF ∧
      LeftUpperLid.HALF < max LeftUpperLid.OPEN LeftUpperLid.CLOSED) ∧
    (min LeftLowerLid.OPEN LeftLowerLid.CLOSED < LeftLowerLid.HALF ∧
      LeftLowerLid.HALF < max LeftLowerLid.OPEN LeftLowerLid.CLOSED) ∧
    (min RightUpperLid.OPEN RightUpperLid.CLOSED < RightUpperLid.HALF ∧
      RightUpperLid.HALF < max RightUpperLid.OPEN RightUpperLid.CLOSED) ∧
    (min RightLowerLid.OPEN RightLowerLid.CLOSED < RightLowerLid.HALF ∧
      RightLowerLid.HALF < max RightLowerLid.OPEN RightLowerLid.CLOSED) ∧
    LeftUpperLid.HALF ≠ (LeftUpperLid.OPEN + LeftUpperLid.CLOSED) / 2 := by decide

/-- Claim C10: `NunchuckCalibration::CENTER = 126` is exactly the integer
midpoint `(JOY_X_MIN + JOY_X_MAX) / 2 = (26 + 226) / 2`, and the Y-axis bounds
equal the X-axis bounds, so the single CENTER constant is the midpoint of
both axes. -/
theorem nunchuck_center_is_midpoint :
    NunchuckCalibration.CENTER =
      (NunchuckCalibration.JOY_X_MIN + NunchuckCalibration.JOY_X_MAX) / 2 ∧
    NunchuckCalibration.CENTER = 126 ∧
    NunchuckCalibration.JOY_Y_MIN = NunchuckCalibration.JOY_X_MIN ∧
    NunchuckCalibration.JOY_X_MIN = 26 ∧
    NunchuckCalibration.JOY_Y_MAX = NunchuckCalibration.JOY_X_MAX ∧
    NunchuckCalibration.JOY_X_MAX = 226 ∧
    NunchuckCalibration.CENTER =
      (NunchuckCalibration.JOY_Y_MIN + NunchuckCalibration.JOY_Y_MAX) / 2 := by decide

/-- Claim C1: on any channel that passes load-time validation, and from any
state whose current pulse is in the channel's safe range, `tick` returns a
pulse within the inclusive safe range `[minPulse, maxPulse]`, a range that
itself lies within `[ABSOLUTE_MIN_PULSE, ABSOLUTE_MAX_PULSE] = [100, 650]`;
`tick` is a total function — it never raises, out-of-range runtime input is
clamped rather than rejected. -/
theorem tick_output_in_safe_range (c : ChannelLimits) (st : AxisState)
    (raw dt : Int) (hok : channelOk c = true)
    (hlo : c.minPulse ≤ st.currentPulse) (hhi : st.currentPulse ≤ c.maxPulse) :
    (c.minPulse ≤ (tick c st raw dt).currentPulse ∧
      (tick c st raw dt).currentPulse ≤ c.maxPulse) ∧
    (SafetyLimits.ABSOLUTE_MIN_PULSE : ℚ) ≤ c.minPulse ∧
    c.maxPulse ≤ (SafetyLimits.ABSOLUTE_MAX_PULSE : ℚ) := by
  obtain ⟨hmm, -, hg1, -, -, hg4⟩ := (channelOk_eq_true_iff c).mp hok
  refine ⟨?_, hg1, hg4⟩
  by_cases hdt : dt < SafetyLimits.MIN_UPDATE_INTERVAL_MS
  · simp only [tick, if_pos hdt]
    exact ⟨hlo, hhi⟩
  · simp only [tick, if_neg hdt]
    exact clampPulse_mem c _ hmm.le

/-- Witness for C1: the horizontal channel, centred state, a wildly
out-of-range raw input. -/
theorem tick_output_in_safe_range_witness :
    channelOk horizontalChannel = true ∧
    horizontalChannel.minPulse ≤ (AxisState.mk 345 0).currentPulse ∧
    (AxisState.mk 345 0).currentPulse ≤ horizontalChannel.maxPulse ∧
    ((horizontalChannel.minPulse ≤
        (tick horizontalChannel (AxisState.mk 345 0) 9999 20).currentPulse ∧
      (tick horizontalChannel (AxisState.mk 345 0) 9999 20).currentPulse ≤
        horizontalChannel.maxPulse) ∧
     (SafetyLimits.ABSOLUTE_MIN_PULSE : ℚ) ≤ horizontalChannel.minPulse ∧
     horizontalChannel.maxPulse ≤ (SafetyLimits.ABSOLUTE_MAX_PULSE : ℚ)) :=
  ⟨by decide, by decide, by decide,
   tick_output_in_safe_range horizontalChannel (AxisState.mk 345 0) 9999 20
     (by decide) (by decide) (by decide)⟩

/-- Claim C4: between two consecutive Motion Controller ticks on the same
channel (the state's current pulse being the previous tick's output, inside
the safe range), the output moves by at most
`MAX_DELTA_PER_UPDATE = 50` in absolute value, and the capped step preserves
the direction of the uncapped smoothed step. -/
theorem tick_delta_bounded (c : ChannelLimits) (st : AxisState) (raw dt : Int)
    (hlo : c.minPulse ≤ st.currentPulse) (hhi : st.currentPulse ≤ c.maxPulse) :
    |(tick c st raw dt).currentPulse - st.currentPulse| ≤
      (SafetyLimits.MAX_DELTA_PER_UPDATE : ℚ) ∧
    (∀ d : ℚ, (0 ≤ d → 0 ≤ capDelta d) ∧ (d ≤ 0 → capDelta d ≤ 0)) := by
  refine ⟨?_, fun d => ⟨capDelta_nonneg, capDelta_nonpos⟩⟩
  by_cases hdt : dt < SafetyLimits.MIN_UPDATE_INTERVAL_MS
  · simp only [tick, if_pos hdt, sub_self, abs_zero]
    norm_num [SafetyLimits.MAX_DELTA_PER_UPDATE]
  · simp only [tick, if_neg hdt]
    exact le_trans (abs_clampPulse_sub_le c st.currentPulse _ hlo hhi)
      (abs_capDelta_le _)

/-- Witness for C4: the vertical channel, a state at its lower bound, raw
input at full deflection. -/
theorem tick_delta_bounded_witness :
    verticalChannel.minPulse ≤ (AxisState.mk 260 0).currentPulse ∧
    (AxisState.mk 260 0).currentPulse ≤ verticalChannel.maxPulse ∧
    (|(tick verticalChannel (AxisState.mk 260 0) 226 20).currentPulse -
        (AxisState.mk 260 0).currentPulse| ≤
      (SafetyLimits.MAX_DELTA_PER_UPDATE : ℚ) ∧
     (∀ d : ℚ, (0 ≤ d → 0 ≤ capDelta d) ∧ (d ≤ 0 → capDelta d ≤ 0))) :=
  ⟨by decide, by decide,
   tick_delta_bounded verticalChannel (AxisState.mk 260 0) 226 20
     (by decide) (by decide)⟩

/-- Claim C7: raw inputs strictly within `DEADZONE = 10` of the joystick
centre produce exactly the tick output of the centre input itself — no
residual partial response inside the deadzone. -/
theorem tick_deadzone_idempotent (c : ChannelLimits) (st : AxisState)
    (raw dt : Int) (h : |raw - NunchuckCalibration.CENTER| < DEADZONE) :
    tick c st raw dt = tick c st NunchuckCalibration.CENTER dt := by
  have h1 : applyDeadzone raw = NunchuckCalibration.CENTER := if_pos h
  have h2 : applyDeadzone NunchuckCalibration.CENTER = NunchuckCalibration.CENTER := by
    unfold applyDeadzone
    rw [if_pos (by decide)]
  unfold tick
  rw [h1, h2]

/-- Witness for C7: raw input 120 is 6 units from the centre 126, inside the
deadzone, and ticks exactly like the centre. -/
theorem tick_deadzone_idempotent_witness :
    |(120 : Int) - NunchuckCalibration.CENTER| < DEADZONE ∧
    tick verticalChannel (AxisState.mk 342 0) 120 20 =
      tick verticalChannel (AxisState.mk 342 0) NunchuckCalibration.CENTER 20 :=
  ⟨by decide,
   tick_deadzone_idempotent verticalChannel (AxisState.mk 342 0) 120 20 (by decide)⟩

/-- Counterexample for C5: the claimed symmetry — `mapLogical c v` equal to
`mapLogical` at `1 - v` on the channel with `inverted` cleared AND the two
reference points swapped — fails: clearing `inverted` and swapping the
reference points yields the very same mapping as `c`, so evaluating it at
`1 - v` does not reproduce `mapLogical c v` (the left lower lid channel at
`v = 0` gives 400 on the left and 280 on the right). -/
theorem mapLogical_swap_symmetry_counterexample :
    ¬ (∀ c : ChannelLimits, c.inverted = true → ∀ v : ℚ, 0 ≤ v → v ≤ 1 →
        mapLogical c v = mapLogical (setInverted (swapRefs c) false) (1 - v)) := by
  intro h
  have h0 := h leftLowerLidChannel rfl 0 le_rfl zero_le_one
  have hl : mapLogical leftLowerLidChannel 0 = 400 := by
    norm_num [mapLogical, leftLowerLidChannel, ChannelLimits.refPair,
      LeftLowerLid.OPEN, LeftLowerLid.CLOSED, LeftLowerLid.HALF, LeftLowerLid.INVERTED]
  have hr : mapLogical (setInverted (swapRefs leftLowerLidChannel) false) (1 - 0) = 280 := by
    norm_num [mapLogical, setInverted, swapRefs, leftLowerLidChannel, ChannelLimits.refPair,
      LeftLowerLid.OPEN, LeftLowerLid.CLOSED, LeftLowerLid.HALF, LeftLowerLid.INVERTED]
  rw [hl, hr] at h0
  norm_num at h0

/-- Claim C5 as amended: for a channel with `inverted = true`, `mapLogical c v`
equals `mapLogical` at `1 - v` on the same channel with `inverted = false` and
identical (unswapped) reference points — `mapLogical` is linear interpolation
between the channel's two reference points, `inverted` swapping which
reference point corresponds to logical 0.0. -/
theorem mapLogical_inversion_symmetry (c : ChannelLimits)
    (h : c.inverted = true) (v : ℚ) :
    mapLogical c v = mapLogical (setInverted c false) (1 - v) := by
  have hrp : (setInverted c false).refPair = c.refPair := rfl
  have hinv : (setInverted c false).inverted = false := rfl
  simp only [mapLogical, hrp, hinv, h, Bool.false_eq_true, eq_self_iff_true,
    if_true, if_false]
  ring

/-- Claim C6: on the horizontal channel as configured in `HorizontalLimits`
(MIN = 220, MAX = 470, CENTER = 345, INVERTED = true), holding the raw input
at full left (`JOY_X_MIN`) makes the tick output converge over repeated ticks
to pulse 470, and at no tick does the output exceed 470 or fall below 220. -/
theorem horizontal_full_left_converges (st : AxisState)
    (h1 : (220 : ℚ) ≤ st.currentPulse) (h2 : st.currentPulse ≤ (470 : ℚ)) :
    (∀ n : ℕ,
      (220 : ℚ) ≤ (iterTick horizontalChannel NunchuckCalibration.JOY_X_MIN 20 n st).currentPulse ∧
      (iterTick horizontalChannel NunchuckCalibration.JOY_X_MIN 20 n st).currentPulse ≤ 470) ∧
    (∀ ε : ℚ, 0 < ε → ∃ N : ℕ, ∀ n, N ≤ n →
      |470 - (iterTick horizontalChannel NunchuckCalibration.JOY_X_MIN 20 n st).currentPulse| < ε) := by
  refine ⟨fun n => ⟨(iterTick_fullLeft st h1 h2 n).1, (iterTick_fullLeft st h1 h2 n).2.1⟩, ?_⟩
  intro ε hε
  obtain ⟨N, hN⟩ := exists_pow_lt_of_lt_one
    (div_pos hε (by norm_num : (0 : ℚ) < 250)) (by norm_num : (7/8 : ℚ) < 1)
  refine ⟨N, fun n hn => ?_⟩
  obtain ⟨hb1, hb2, hf⟩ := iterTick_fullLeft st h1 h2 n
  rw [abs_of_nonneg (by linarith), hf]
  have hpow : ((7 : ℚ)/8)^n ≤ (7/8 : ℚ)^N :=
    pow_le_pow_of_le_one (by norm_num) (by norm_num) hn
  have h250 : 470 - st.currentPulse ≤ 250 := by linarith
  have h0 : (0 : ℚ) ≤ 470 - st.currentPulse := by linarith
  calc (7/8 : ℚ)^n * (470 - st.currentPulse)
      ≤ (7/8 : ℚ)^N * 250 := mul_le_mul hpow h250 h0 (by positivity)
    _ < (ε/250) * 250 := mul_lt_mul_of_pos_right hN (by norm_num)
    _ = ε := by field_simp

/-- Witness for C6: starting from the centred state 345, the iterated ticks
stay within the bounds and converge. -/
theorem horizontal_full_left_converges_witness :
    ((220 : ℚ) ≤ (AxisState.mk 345 0).currentPulse ∧
      (AxisState.mk 345 0).currentPulse ≤ (470 : ℚ)) ∧
    ((∀ n : ℕ,
       (220 : ℚ) ≤ (iterTick horizontalChannel NunchuckCalibration.JOY_X_MIN 20 n
         (AxisState.mk 345 0)).currentPulse ∧
       (iterTick horizontalChannel NunchuckCalibration.JOY_X_MIN 20 n
         (AxisState.mk 345 0)).currentPulse ≤ 470) ∧
     (∀ ε : ℚ, 0 < ε → ∃ N : ℕ, ∀ n, N ≤ n →
       |470 - (iterTick horizontalChannel NunchuckCalibration.JOY_X_MIN 20 n
         (AxisState.mk 345 0)).currentPulse| < ε)) :=
  ⟨⟨by decide, by decide⟩,
   horizontal_full_left_converges (AxisState.mk 345 0) (by decide) (by decide)⟩

/-- Witness for C5 (amended): the left lower lid channel at logical 1/4. -/
theorem mapLogical_inversion_symmetry_witness :
    leftLowerLidChannel.inverted = true ∧
    mapLogical leftLowerLidChannel (1/4) =
      mapLogical (setInverted leftLowerLidChannel false) (1 - 1/4) :=
  ⟨rfl, mapLogical_inversion_symmetry leftLowerLidChannel rfl (1/4)⟩

end AnimatronicEyes

